import Mathlib

/-!
Shallow embedding of `src/public_app.py` (a Streamlit feedback-collection
app): the Response Generator (`call_model_tuned` with its helper
`_extract_text`), the Submission Writer (`_upload_json`,
`_raw_key_for_today`), the startup configuration check, the submission
record construction, and the submit button handler.

External services (the Vertex AI inference endpoint and the Cloud Storage
client) are modelled as explicit environments passed to the functions that
call them.
-/

namespace PublicApp

/-! ### Python `str.strip()` -/

/-- ASCII whitespace recognised by Python's `str.strip()` (the model keeps
the ASCII subset of Python's whitespace class). -/
def pyIsSpace (c : Char) : Bool :=
  c = ' ' || c = '\t' || c = '\n' || c = '\x0d' || c = '\x0b' || c = '\x0c'

/-- Strip leading and trailing whitespace from a character list. -/
def stripList (l : List Char) : List Char :=
  (l.dropWhile pyIsSpace).rdropWhile pyIsSpace

/-- Embedding of Python `s.strip()`. -/
def pstrip (s : String) : String :=
  ⟨stripList s.data⟩

/-! ### Vertex AI response shape and `_extract_text` -/

/-- One part of a candidate's content (`p.text`). -/
structure RPart where
  text : Option String
deriving DecidableEq, Repr

/-- A candidate's content (`content.parts`). -/
structure RContent where
  parts : Option (List RPart)
deriving DecidableEq, Repr

/-- One response candidate (`c.content`). -/
structure RCandidate where
  content : Option RContent
deriving DecidableEq, Repr

/-- A generation response: optional top-level `text` plus optional
candidate list, as accessed by `_extract_text` via `getattr`. -/
structure Response where
  text : Option String
  candidates : Option (List RCandidate)
deriving DecidableEq, Repr

/-- The text fragments collected by the candidate loop of
`_extract_text`: every truthy (non-empty) `p.text` over all candidates
with content and parts, in order. -/
def candidatePieces (r : Response) : List String :=
  ((r.candidates.getD []).map fun c =>
    match c.content with
    | none => []
    | some content =>
      match content.parts with
      | none => []
      | some parts => (parts.filterMap fun p => p.text).filter (fun t => t ≠ "")).flatten

/-- Embedding of `_extract_text`: prefer a truthy `r.text` (stripped),
otherwise join the candidate pieces with newlines and strip. -/
def _extract_text (r : Response) : String :=
  match r.text with
  | some t => if t = "" then pstrip (String.intercalate "\n" (candidatePieces r)) else pstrip t
  | none => pstrip (String.intercalate "\n" (candidatePieces r))

/-! ### The generator environment and `call_model_tuned` -/

/-- The inference service as seen by the app: a map from (model name,
prompt) to either a response or a raised exception (`repr` string).
`call_model_tuned` queries it for the tuned model and, on fallback, for
the fixed base model `"gemini-1.5-pro-002"`. -/
structure GenEnv where
  respond : String → String → Except String Response

/-- The fixed generic fallback model name hard-coded in the source. -/
def BASE_MODEL : String := "gemini-1.5-pro-002"

/-- One entry of `meta["route"]`: either `{"name": n, "ok": b}` or
`{"name": n, "error": e}`. -/
inductive RouteEntry where
  | ok (name : String) (ok : Bool)
  | error (name : String) (err : String)
deriving DecidableEq, Repr

/-- The strategy name recorded in a route entry. -/
def RouteEntry.name : RouteEntry → String
  | .ok n _ => n
  | .error n _ => n

/-- Whether a route entry records a captured error description. -/
def RouteEntry.isError : RouteEntry → Bool
  | .ok _ _ => false
  | .error _ _ => true

/-- Embedding of `call_model_tuned`: (1) call the tuned model
synchronously; return its extracted text if non-empty; (2) otherwise fall
back to the base model synchronously and return whatever it extracts
(empty string if it raises).  The route trace mirrors `meta["route"]`. -/
def call_model_tuned (env : GenEnv) (tunedName : String) (prompt : String) :
    String × List RouteEntry :=
  match env.respond tunedName prompt with
  | .ok r =>
    let text := _extract_text r
    if text ≠ "" then
      (text, [.ok "tuned-sync" true])
    else
      match env.respond BASE_MODEL prompt with
      | .ok r2 =>
        let text2 := _extract_text r2
        (text2, [.ok "tuned-sync" false, .ok "base-sync" (text2 ≠ "")])
      | .error e2 =>
        ("", [.ok "tuned-sync" false, .error "base-sync" e2])
  | .error e =>
    match env.respond BASE_MODEL prompt with
    | .ok r2 =>
      let text2 := _extract_text r2
      (text2, [.error "tuned-sync" e, .ok "base-sync" (text2 ≠ "")])
    | .error e2 =>
      ("", [.error "tuned-sync" e, .error "base-sync" e2])

/-! ### Storage key construction (`_raw_key_for_today`) -/

/-- Lowercase hexadecimal digit character for `d < 16`. -/
def hexChar (d : Nat) : Char :=
  if d < 10 then Char.ofNat (48 + d) else Char.ofNat (87 + d)

/-- Model of `uuid.uuid4().hex`: the 32-character lowercase hexadecimal
rendering (most significant nibble first) of a 128-bit random value `n`. -/
def uuidHex (n : Nat) : String :=
  ⟨(List.range 32).map fun i => hexChar (n / 16 ^ (31 - i) % 16)⟩

/-- Model of `uuid.uuid4().hex[:10]`: the first 10 characters. -/
def uuidToken (n : Nat) : String :=
  ⟨(uuidHex n).data.take 10⟩

/-- Embedding of `_raw_key_for_today`, with the ambient state made
explicit: `prefix` is `RAW_PREFIX`, `day` is `datetime.utcnow()` formatted
`%Y-%m-%d`, and `n` is the random value drawn by `uuid.uuid4()`. -/
def _raw_key_for_today (rawPrefix day : String) (n : Nat) : String :=
  rawPrefix ++ "/" ++ day ++ "/" ++ uuidToken n ++ ".json"

/-! ### JSON serialization and `_upload_json` -/

/-- Two-digit lowercase hex rendering of a byte. -/
def hexByte (n : Nat) : String :=
  ⟨[hexChar (n / 16 % 16), hexChar (n % 16)]⟩

/-- Escaping of a single character inside a JSON string literal as
performed by Python `json.dumps(..., ensure_ascii=False)`: only the quote,
the backslash and control characters below `0x20` are escaped; every other
character — in particular all non-ASCII text — is emitted verbatim. -/
def jsonEscapeChar (c : Char) : String :=
  if c = '"' then "\\\""
  else if c = '\\' then "\\\\"
  else if c = '\n' then "\\n"
  else if c = '\t' then "\\t"
  else if c = '\x0d' then "\\r"
  else if c = '\x08' then "\\b"
  else if c = '\x0c' then "\\f"
  else if c.toNat < 0x20 then "\\u00" ++ hexByte c.toNat
  else String.singleton c

/-- A JSON string literal for `s`. -/
def jsonString (s : String) : String :=
  "\"" ++ String.join (s.data.map jsonEscapeChar) ++ "\""

/-- One `"key": "value"` line at indentation 2. -/
def jsonEntry (kv : String × String) : String :=
  "  " ++ jsonString kv.1 ++ ": " ++ jsonString kv.2

/-- Model of `json.dumps(obj, ensure_ascii=False, indent=2)` for the flat
string-to-string objects this app serializes: entries appear in the
object's insertion order, one per line, indented two spaces. -/
def jsonDumps (obj : List (String × String)) : String :=
  match obj with
  | [] => "\x7b\x7d"
  | _ => "\x7b\n" ++ String.intercalate ",\n" (obj.map jsonEntry) ++ "\n\x7d"

/-- The single storage upload performed by `_upload_json`: the blob's
key, its payload, and the metadata set on the call
(`size=len(data)`, `content_type`, `blob.cache_control`). -/
structure UploadCall where
  bucket : String
  key : String
  data : String
  declaredSize : Nat
  contentType : String
  cacheControl : String
deriving DecidableEq, Repr

/-- Embedding of `_upload_json`: serialize the object with
`json.dumps(obj, ensure_ascii=False, indent=2)`, encode as UTF-8, and
issue one upload declaring the exact byte length, content type
`application/json` and cache control `no-cache`. -/
def _upload_json (bucket key : String) (obj : List (String × String)) : UploadCall :=
  let data := jsonDumps obj
  { bucket := bucket
    key := key
    data := data
    declaredSize := data.utf8ByteSize
    contentType := "application/json"
    cacheControl := "no-cache" }

/-! ### Timestamps and the submission record -/

/-- A UTC wall-clock instant at second precision, as produced by
`datetime.utcnow()` (sub-second detail is irrelevant to the formats the
app uses). -/
structure UTCTime where
  year : Nat
  month : Nat
  day : Nat
  hour : Nat
  minute : Nat
  second : Nat
deriving DecidableEq, Repr

/-- Zero-padded two-digit field, as in `strftime` `%m`/`%d`/`%H`/`%M`/`%S`. -/
def pad2 (n : Nat) : String :=
  if n < 10 then "0" ++ toString n else toString n

/-- Zero-padded four-digit field, as in `strftime` `%Y`. -/
def pad4 (n : Nat) : String :=
  if n < 10 then "000" ++ toString n
  else if n < 100 then "00" ++ toString n
  else if n < 1000 then "0" ++ toString n
  else toString n

/-- Embedding of `datetime.utcnow().strftime("%Y-%m-%d")` — the day partition of the
storage key. -/
def dayString (t : UTCTime) : String :=
  pad4 t.year ++ "-" ++ pad2 t.month ++ "-" ++ pad2 t.day

/-- Embedding of `datetime.utcnow().strftime("%Y-%m-%dT%H:%M:%SZ")` — the record's
timestamp: ISO-8601 at second precision with a `Z` suffix. -/
def timestampString (t : UTCTime) : String :=
  dayString t ++ "T" ++ pad2 t.hour ++ ":" ++ pad2 t.minute ++ ":" ++ pad2 t.second ++ "Z"

/-- The submission record built by the submit handler, as the ordered
key-value object passed to `json.dumps`. -/
def mkRecord (now : UTCTime) (prompt draft tunedName : String) : List (String × String) :=
  [ ("timestamp", timestampString now)
  , ("prompt", pstrip prompt)
  , ("ai_response", draft)
  , ("used_model", tunedName)
  , ("source_app", "public")
  , ("version", "v1") ]

/-! ### Startup configuration check -/

/-- The Streamlit secrets the module reads at import time; `none` models
an absent key. `gcp_service_account` stands for the service-account JSON
blob (its contents are opaque to this model). -/
structure Secrets where
  project_id : Option String
  location : Option String
  tuned_model_name : Option String
  raw_bucket_name : Option String
  raw_prefix : Option String
  gcp_service_account : Option String
deriving DecidableEq, Repr

/-- Python truthiness of `st.secrets.get(k)`: `None` and `""` are falsy. -/
def truthyOpt : Option String → Bool
  | none => false
  | some s => s ≠ ""

/-- Python `s.strip("/")`: strip leading and trailing slashes. -/
def stripSlashes (s : String) : String :=
  ⟨(s.data.dropWhile (· = '/')).rdropWhile (· = '/')⟩

/-- The resolved configuration when startup succeeds. -/
structure Config where
  projectId : String
  location : String
  tunedName : String
  rawBucket : String
  rawPrefix : String
deriving DecidableEq, Repr

/-- Outcome of module import: either `st.stop()` was reached after an
error message, or the app proceeds with a resolved configuration. -/
inductive Startup where
  | stopped (msg : String)
  | running (cfg : Config)
deriving DecidableEq, Repr

/-- Whether startup refused to operate. -/
def Startup.isStopped : Startup → Bool
  | .stopped _ => true
  | .running _ => false

/-- Embedding of the module-level configuration block (lines 32–54):
read the secrets (with defaults for `location` and `raw_prefix`), stop if
`project_id`, `location`, the stripped `tuned_model_name` or
`raw_bucket_name` is falsy, then load credentials and stop if that raises
(`credOk` models whether `from_service_account_info` succeeds on the
present blob). -/
def startApp (s : Secrets) (credOk : Bool) : Startup :=
  let PROJECT_ID := s.project_id
  let LOCATION := s.location.getD "us-central1"
  let TUNED_NAME := pstrip (s.tuned_model_name.getD "")
  let RAW_BUCKET := s.raw_bucket_name
  let RAW_PREFIX := stripSlashes (pstrip (s.raw_prefix.getD "raw_submissions"))
  if !(truthyOpt PROJECT_ID && LOCATION ≠ "" && TUNED_NAME ≠ "" && truthyOpt RAW_BUCKET) then
    .stopped "Secrets 설정이 부족합니다."
  else
    match s.gcp_service_account with
    | none => .stopped "Secrets의 [gcp_service_account] JSON을 확인하세요."
    | some _ =>
      if credOk then
        .running
          { projectId := PROJECT_ID.getD ""
            location := LOCATION
            tunedName := TUNED_NAME
            rawBucket := RAW_BUCKET.getD ""
            rawPrefix := RAW_PREFIX }
      else
        .stopped "Secrets의 [gcp_service_account] JSON을 확인하세요."

/-! ### The submit button handler -/

/-- The per-session UI state the handler touches:
`st.session_state.draft_text`. -/
structure SessionState where
  draft_text : String
deriving DecidableEq, Repr

/-- The storage service as seen by one submission attempt: whether the
single `upload_from_file` call succeeds or raises (with the exception's
description). The upload is one size-declared call, so a failed call
persists nothing. -/
structure StorageEnv where
  uploadResult : Except String Unit

/-- Everything observable about one press of the submit button. -/
structure SubmitOutcome where
  /-- session state after the handler returns -/
  newState : SessionState
  /-- the `(key, record)` pairs durably stored by this attempt -/
  persisted : List (String × List (String × String))
  /-- the upload calls issued, in order -/
  uploadCalls : List UploadCall
  /-- messages shown by `st.error`/`st.exception` -/
  errors : List String
  /-- messages shown by `st.warning` -/
  warnings : List String
deriving Repr

/-- Embedding of the submit branch (lines 163–187): check consent, check
the prompt is non-blank, generate a draft on demand if the session draft
is empty, build the record, compute the key, then attempt exactly one
upload — clearing the draft on success, or surfacing a single error and
keeping the draft on failure. `now` is `datetime.utcnow()` and `n` the
value drawn by `uuid.uuid4()`. -/
def submitHandler (gen : GenEnv) (store : StorageEnv) (cfg : Config)
    (state : SessionState) (prompt : String) (consent : Bool)
    (now : UTCTime) (n : Nat) : SubmitOutcome :=
  if !consent then
    { newState := state, persisted := [], uploadCalls := [], errors := []
      warnings := ["제출하려면 동의에 체크해주세요."] }
  else if pstrip prompt = "" then
    { newState := state, persisted := [], uploadCalls := [], errors := []
      warnings := ["상황을 입력해주세요."] }
  else
    let draft :=
      if state.draft_text = "" then (call_model_tuned gen cfg.tunedName prompt).1
      else state.draft_text
    let record := mkRecord now prompt draft cfg.tunedName
    let key := _raw_key_for_today cfg.rawPrefix (dayString now) n
    let call := _upload_json cfg.rawBucket key record
    match store.uploadResult with
    | .ok _ =>
      { newState := ⟨""⟩, persisted := [(key, record)], uploadCalls := [call]
        errors := [], warnings := [] }
    | .error e =>
      { newState := ⟨draft⟩, persisted := [], uploadCalls := [call]
        errors := [e], warnings := [] }

/-! ### Helper lemmas -/

theorem dropWhile_stripList (l : List Char) :
    (stripList l).dropWhile pyIsSpace = stripList l := by
  unfold stripList
  set t := l.dropWhile pyIsSpace with ht
  have htself : t.dropWhile pyIsSpace = t := by
    rw [ht]; exact List.dropWhile_idempotent pyIsSpace l
  rcases hu : t.rdropWhile pyIsSpace with _ | ⟨a, u⟩
  · simp
  · have hpref : a :: u <+: t := hu ▸ List.rdropWhile_prefix pyIsSpace t
    have hlen : 0 < t.length := Nat.lt_of_lt_of_le (by simp) hpref.length_le
    have hhead : ¬ pyIsSpace (t.get ⟨0, hlen⟩) :=
      List.dropWhile_eq_self_iff.mp htself hlen
    have hget : (a :: u)[0] = t[0] := hpref.getElem (by simp)
    have ha : pyIsSpace a = false := by
      simp only [List.getElem_cons_zero] at hget
      simpa [List.get_eq_getElem, ← hget] using hhead
    simp [List.dropWhile_cons, ha]

theorem stripList_idem (l : List Char) : stripList (stripList l) = stripList l := by
  have h := dropWhile_stripList l
  show ((stripList l).dropWhile pyIsSpace).rdropWhile pyIsSpace = stripList l
  rw [h]
  unfold stripList
  exact List.rdropWhile_idempotent _ _

theorem pstrip_idem (s : String) : pstrip (pstrip s) = pstrip s := by
  unfold pstrip
  exact congrArg String.mk (stripList_idem s.data)

theorem pstrip_empty : pstrip "" = "" := rfl

/-- The function `_extract_text` always returns an already-stripped string. -/
theorem _extract_text_stripped (r : Response) :
    pstrip ( _extract_text r) = _extract_text r := by
  unfold _extract_text
  rcases r.text with _ | t
  · exact pstrip_idem _
  · by_cases h : t = "" <;> simp [h, pstrip_idem]

/-- The text returned by `call_model_tuned` is already stripped. -/
theorem call_model_tuned_stripped (env : GenEnv) (tunedName prompt : String) :
    pstrip (call_model_tuned env tunedName prompt).1
      = (call_model_tuned env tunedName prompt).1 := by
  unfold call_model_tuned
  rcases env.respond tunedName prompt with e | r
  · rcases env.respond BASE_MODEL prompt with e2 | r2
    · exact pstrip_empty
    · exact _extract_text_stripped r2
  · by_cases h : _extract_text r ≠ ""
    · simpa [h] using _extract_text_stripped r
    · rcases henv : env.respond BASE_MODEL prompt with e2 | r2
      · simp [h, henv, pstrip_empty]
      · simpa [h, henv] using _extract_text_stripped r2

/-- The text the synchronous base-model fallback would contribute:
the extracted text of its response, or `""` if the call raises. -/
def baseText (env : GenEnv) (prompt : String) : String :=
  match env.respond BASE_MODEL prompt with
  | .ok r2 => _extract_text r2
  | .error _ => ""

/-- The route trace names exactly the attempted strategies, in order:
either the tuned synchronous call alone, or the tuned call followed by
the base-model fallback. -/
theorem call_model_tuned_route_names (env : GenEnv) (tunedName prompt : String) :
    (call_model_tuned env tunedName prompt).2.map RouteEntry.name = ["tuned-sync"]
    ∨ (call_model_tuned env tunedName prompt).2.map RouteEntry.name
        = ["tuned-sync", "base-sync"] := by
  unfold call_model_tuned
  rcases env.respond tunedName prompt with e | r
  · rcases env.respond BASE_MODEL prompt with e2 | r2 <;> simp [RouteEntry.name]
  · by_cases h : _extract_text r ≠ ""
    · simp [h, RouteEntry.name]
    · rcases env.respond BASE_MODEL prompt with e2 | r2 <;> simp [h, RouteEntry.name]

/-- The chain stops after the first step exactly when the tuned call
returns a response with non-empty extracted text. -/
theorem call_model_tuned_stops_iff (env : GenEnv) (tunedName prompt : String) :
    (call_model_tuned env tunedName prompt).2.map RouteEntry.name = ["tuned-sync"]
    ↔ ∃ r, env.respond tunedName prompt = .ok r ∧ _extract_text r ≠ "" := by
  unfold call_model_tuned
  rcases henv : env.respond tunedName prompt with e | r
  · rcases env.respond BASE_MODEL prompt with e2 | r2 <;> simp [RouteEntry.name]
  · by_cases h : _extract_text r ≠ ""
    · simp only [h, if_pos trivial]
      simp [RouteEntry.name, h]
    · rcases env.respond BASE_MODEL prompt with e2 | r2 <;>
        simp_all [RouteEntry.name]

/-- When the chain continues to the second step, the returned text is the
base model's synchronous result (empty if that call raises too). -/
theorem call_model_tuned_fallback_text (env : GenEnv) (tunedName prompt : String)
    (h : (call_model_tuned env tunedName prompt).2.map RouteEntry.name
        = ["tuned-sync", "base-sync"]) :
    (call_model_tuned env tunedName prompt).1 = baseText env prompt := by
  rcases henv : env.respond tunedName prompt with e | r
  · rcases hb : env.respond BASE_MODEL prompt with e2 | r2 <;>
      simp [call_model_tuned, baseText, henv, hb]
  · by_cases hr : _extract_text r = ""
    · rcases hb : env.respond BASE_MODEL prompt with e2 | r2 <;>
        simp [call_model_tuned, baseText, henv, hb, hr]
    · exfalso
      simp [call_model_tuned, henv, hr, RouteEntry.name] at h

/-- When the chain stops at the first step, the returned text is the
tuned model's extracted text. -/
theorem call_model_tuned_first_text (env : GenEnv) (tunedName prompt : String)
    (r : Response) (henv : env.respond tunedName prompt = .ok r)
    (hne : _extract_text r ≠ "") :
    call_model_tuned env tunedName prompt = (_extract_text r, [.ok "tuned-sync" true]) := by
  unfold call_model_tuned
  rw [henv]
  simp [hne]

/-- A generation environment in which every model call raises. -/
def envAllFail : GenEnv := ⟨fun _ _ => .error "boom"⟩

/-- A generation environment in which the tuned model `"tm"` answers
`"hi"` and every other call raises. -/
def envTunedOk : GenEnv :=
  ⟨fun m _ => if m = "tm" then .ok ⟨some "hi", none⟩ else .error "x"⟩

/-- A generation environment in which the tuned model `"tm"` raises and
the base model answers `"from-base"`. -/
def envBaseOnly : GenEnv :=
  ⟨fun m _ => if m = BASE_MODEL then .ok ⟨some "from-base", none⟩ else .error "tuned down"⟩

/-! ### Claim theorems: the Response Generator -/

/-- C1, counterexample: with every model call raising, the generator
attempts only the two strategies `tuned-sync` and `base-sync` — there is
no streaming step and the chain has two steps, not three. -/
theorem c1_counterexample :
    (call_model_tuned envAllFail "tuned-model" "p").2.map RouteEntry.name
      = ["tuned-sync", "base-sync"]
    ∧ (call_model_tuned envAllFail "tuned-model" "p").2.length ≠ 3 := by
  decide

/-- C1 (amended): for every prompt the Response Generator tries an
ordered two-step fallback chain and stops at the first step yielding
non-empty trimmed text: (1) the designated fine-tuned endpoint
synchronously, (2) the fixed generic fallback model synchronously.  The
route is `["tuned-sync"]` exactly when the tuned call returns non-empty
text (which is then the result), and otherwise the result is the base
model's synchronous text. -/
theorem c1_two_step_fallback_chain (env : GenEnv) (tunedName prompt : String) :
    ((call_model_tuned env tunedName prompt).2.map RouteEntry.name = ["tuned-sync"]
      ∨ (call_model_tuned env tunedName prompt).2.map RouteEntry.name
          = ["tuned-sync", "base-sync"])
    ∧ ((call_model_tuned env tunedName prompt).2.map RouteEntry.name = ["tuned-sync"]
        ↔ ∃ r, env.respond tunedName prompt = .ok r ∧ _extract_text r ≠ "")
    ∧ (∀ r, env.respond tunedName prompt = .ok r → _extract_text r ≠ "" →
        call_model_tuned env tunedName prompt = (_extract_text r, [.ok "tuned-sync" true]))
    ∧ ((call_model_tuned env tunedName prompt).2.map RouteEntry.name
          = ["tuned-sync", "base-sync"] →
        (call_model_tuned env tunedName prompt).1 = baseText env prompt) :=
  ⟨call_model_tuned_route_names env tunedName prompt,
   call_model_tuned_stops_iff env tunedName prompt,
   fun r henv hne => call_model_tuned_first_text env tunedName prompt r henv hne,
   call_model_tuned_fallback_text env tunedName prompt⟩

/-- C1, witness: in an environment where the tuned model answers `"hi"`,
the chain stops at the first step and returns `"hi"`. -/
theorem c1_witness :
    call_model_tuned envTunedOk "tm" "p" = ("hi", [.ok "tuned-sync" true]) := by
  have h := c1_two_step_fallback_chain envTunedOk "tm" "p"
  have he := h.2.2.1 ⟨some "hi", none⟩ rfl (by decide)
  rw [he]
  decide

/-- C2, counterexample: when both model calls raise, the trace has 2
entries, not 3 — the generator has no third strategy. -/
theorem c2_counterexample :
    (call_model_tuned envAllFail "tm" "prompt").1 = ""
    ∧ ¬ ((call_model_tuned envAllFail "tm" "prompt").2.length = 3) := by
  decide

/-- C2 (amended): if every generation strategy raises an exception,
`call_model_tuned` returns the empty string together with a trace of
exactly 2 entries, each carrying the captured error description. -/
theorem c2_all_fail_trace (env : GenEnv) (tunedName prompt e1 e2 : String)
    (h1 : env.respond tunedName prompt = .error e1)
    (h2 : env.respond BASE_MODEL prompt = .error e2) :
    call_model_tuned env tunedName prompt
      = ("", [.error "tuned-sync" e1, .error "base-sync" e2])
    ∧ (call_model_tuned env tunedName prompt).2.length = 2
    ∧ ∀ en ∈ (call_model_tuned env tunedName prompt).2, en.isError = true := by
  have hmain : call_model_tuned env tunedName prompt
      = ("", [.error "tuned-sync" e1, .error "base-sync" e2]) := by
    unfold call_model_tuned
    rw [h1, h2]
  refine ⟨hmain, ?_, ?_⟩ <;> rw [hmain]
  · rfl
  · intro en hen
    simp only [List.mem_cons, List.not_mem_nil, or_false] at hen
    rcases hen with rfl | rfl <;> rfl

/-- C2, witness: the all-fail environment realises the amended claim. -/
theorem c2_witness :
    call_model_tuned envAllFail "tm" "p"
      = ("", [.error "tuned-sync" "boom", .error "base-sync" "boom"])
    ∧ (call_model_tuned envAllFail "tm" "p").2.length = 2
    ∧ ∀ en ∈ (call_model_tuned envAllFail "tm" "p").2, en.isError = true :=
  c2_all_fail_trace envAllFail "tm" "p" "boom" "boom" rfl rfl

/-- C3: for every non-blank prompt, `call_model_tuned` returns a trimmed
string (never a null value — the result type is `String`) together with a
trace holding one entry per attempted strategy in attempt order, each
entry recording either a success flag or a captured error description. -/
theorem c3_generate_shape (env : GenEnv) (tunedName prompt : String)
    (hp : pstrip prompt ≠ "") :
    pstrip (call_model_tuned env tunedName prompt).1
        = (call_model_tuned env tunedName prompt).1
    ∧ ((call_model_tuned env tunedName prompt).2.map RouteEntry.name = ["tuned-sync"]
        ∨ (call_model_tuned env tunedName prompt).2.map RouteEntry.name
            = ["tuned-sync", "base-sync"])
    ∧ ∀ en ∈ (call_model_tuned env tunedName prompt).2,
        (∃ b, en = .ok en.name b) ∨ (∃ msg, en = .error en.name msg) := by
  refine ⟨call_model_tuned_stripped env tunedName prompt,
    call_model_tuned_route_names env tunedName prompt, ?_⟩
  intro en _
  cases en
  · exact Or.inl ⟨_, rfl⟩
  · exact Or.inr ⟨_, rfl⟩

/-- C3, witness: the shape theorem at a concrete non-blank prompt. -/
theorem c3_witness :
    pstrip (call_model_tuned envTunedOk "tm" "hello").1
        = (call_model_tuned envTunedOk "tm" "hello").1
    ∧ ((call_model_tuned envTunedOk "tm" "hello").2.map RouteEntry.name = ["tuned-sync"]
        ∨ (call_model_tuned envTunedOk "tm" "hello").2.map RouteEntry.name
            = ["tuned-sync", "base-sync"]) := by
  have h := c3_generate_shape envTunedOk "tm" "hello" (by decide)
  exact ⟨h.1, h.2.1⟩

/-! ### Claim theorems: storage keys -/

/-- Lowercase hexadecimal alphabet membership. -/
def isHexLowerChar (c : Char) : Bool :=
  ('0' ≤ c && c ≤ '9') || ('a' ≤ c && c ≤ 'f')

theorem hexChar_isHex : ∀ d, d < 16 → isHexLowerChar (hexChar d) = true := by
  decide

/-- The character data of a storage key, flattened. -/
theorem raw_key_data (rawPrefix day : String) (m : Nat) :
    (_raw_key_for_today rawPrefix day m).data
      = (rawPrefix ++ "/" ++ day ++ "/").data ++ (uuidToken m).data ++ ".json".data := by
  simp [_raw_key_for_today, String.data_append]

/-- Keys built from distinct tokens are distinct. -/
theorem raw_key_injective_token (rawPrefix day : String) (n₁ n₂ : Nat)
    (hne : uuidToken n₁ ≠ uuidToken n₂) :
    _raw_key_for_today rawPrefix day n₁ ≠ _raw_key_for_today rawPrefix day n₂ := by
  intro heq
  apply hne
  have hd := congrArg String.data heq
  rw [raw_key_data, raw_key_data, List.append_assoc, List.append_assoc] at hd
  exact String.ext (List.append_cancel_right (List.append_cancel_left hd))

/-- C4: every storage key has the form
`{prefix}/{day}/{token}.json` where the token is the 10-character prefix
of the random UUID's lowercase-hex digest, and two submissions whose
random tokens differ get distinct keys even within the same UTC day. -/
theorem c4_storage_key (rawPrefix day : String) (n n₁ n₂ : Nat)
    (hne : uuidToken n₁ ≠ uuidToken n₂) :
    _raw_key_for_today rawPrefix day n
        = rawPrefix ++ "/" ++ day ++ "/" ++ uuidToken n ++ ".json"
    ∧ (uuidToken n).length = 10
    ∧ (∀ c ∈ (uuidToken n).data, isHexLowerChar c = true)
    ∧ _raw_key_for_today rawPrefix day n₁ ≠ _raw_key_for_today rawPrefix day n₂ := by
  refine ⟨rfl, ?_, ?_, raw_key_injective_token rawPrefix day n₁ n₂ hne⟩
  · simp [uuidToken, uuidHex, String.length]
  · intro c hc
    simp only [uuidToken, uuidHex] at hc
    have hc' := List.mem_of_mem_take hc
    obtain ⟨i, _, rfl⟩ := List.mem_map.mp hc'
    exact hexChar_isHex _ (Nat.mod_lt _ (by norm_num))

/-- C4, witness: tokens of two concrete random draws differ in their
first digit, and the resulting keys for the same day are distinct. -/
theorem c4_witness :
    uuidToken 0 ≠ uuidToken (16 ^ 31)
    ∧ _raw_key_for_today "raw_submissions" "2026-10-12" 0
        ≠ _raw_key_for_today "raw_submissions" "2026-10-12" (16 ^ 31) := by
  have hne : uuidToken 0 ≠ uuidToken (16 ^ 31) := by decide
  exact ⟨hne, (c4_storage_key "raw_submissions" "2026-10-12" 0 0 (16 ^ 31) hne).2.2.2⟩

/-! ### Claim theorems: serialization and upload -/

/-- Characters at or above `0x80` — all non-ASCII text — pass through the
JSON escaper verbatim. -/
theorem jsonEscapeChar_nonascii (c : Char) (h : 0x80 ≤ c.toNat) :
    jsonEscapeChar c = String.singleton c := by
  have hne : ∀ d : Char, d.toNat < 0x80 → c ≠ d := by
    intro d hd hcd
    rw [hcd] at h
    omega
  unfold jsonEscapeChar
  rw [if_neg (hne '"' (by decide)), if_neg (hne '\\' (by decide)),
      if_neg (hne '\n' (by decide)), if_neg (hne '\t' (by decide)),
      if_neg (hne '\x0d' (by decide)), if_neg (hne '\x08' (by decide)),
      if_neg (hne '\x0c' (by decide)), if_neg (by omega)]

/-- C5: `_upload_json` serializes the record with the modelled
`json.dumps(..., ensure_ascii=False, indent=2)` (entries on their own
lines, two-space indentation, insertion order), and issues one upload
declaring exactly the payload's UTF-8 byte length, content type
`application/json`, and cache control `no-cache`; the escaper leaves all
non-ASCII characters unescaped. -/
theorem c5_upload_call (bucket key : String) (obj : List (String × String)) :
    ( _upload_json bucket key obj).data = jsonDumps obj
    ∧ ( _upload_json bucket key obj).declaredSize
        = ( _upload_json bucket key obj).data.utf8ByteSize
    ∧ ( _upload_json bucket key obj).contentType = "application/json"
    ∧ ( _upload_json bucket key obj).cacheControl = "no-cache"
    ∧ (obj ≠ [] →
        jsonDumps obj
          = "\x7b\n" ++ String.intercalate ",\n" (obj.map jsonEntry) ++ "\n\x7d")
    ∧ (∀ c : Char, 0x80 ≤ c.toNat → jsonEscapeChar c = String.singleton c) := by
  refine ⟨rfl, rfl, rfl, rfl, ?_, jsonEscapeChar_nonascii⟩
  intro h
  cases obj with
  | nil => exact absurd rfl h
  | cons kv tl => rfl

/-- C5, witness: a record holding Korean text is uploaded with matching
declared size and metadata, and a Korean character survives escaping. -/
theorem c5_witness :
    ( _upload_json "b" "k" [("prompt", "학생")]).contentType = "application/json"
    ∧ ( _upload_json "b" "k" [("prompt", "학생")]).cacheControl = "no-cache"
    ∧ ( _upload_json "b" "k" [("prompt", "학생")]).declaredSize
        = ( _upload_json "b" "k" [("prompt", "학생")]).data.utf8ByteSize
    ∧ jsonEscapeChar '학' = String.singleton '학' := by
  have h := c5_upload_call "b" "k" [("prompt", "학생")]
  exact ⟨h.2.2.1, h.2.2.2.1, h.2.1, h.2.2.2.2.2 '학' (by decide)⟩

/-! ### Claim theorems: configuration check -/

/-- A secrets table whose only missing entry is the region. -/
def secretsNoLocation : Secrets :=
  { project_id := some "p"
    location := none
    tuned_model_name := some "m"
    raw_bucket_name := some "b"
    raw_prefix := some "raw_submissions"
    gcp_service_account := some "cred" }

/-- C6, counterexample: with the region secret absent (and everything
else present), startup does not refuse — it runs with the default region
`us-central1`. -/
theorem c6_counterexample :
    (startApp secretsNoLocation true).isStopped = false
    ∧ startApp secretsNoLocation true
        = .running { projectId := "p", location := "us-central1", tunedName := "m"
                     rawBucket := "b", rawPrefix := "raw_submissions" } := by
  decide

/-- C6 (amended): startup refuses to operate when the project identifier,
the (stripped) tuned model identifier, the storage bucket name, or the
credential material is absent or unusable; an absent region does not stop
the app — it is defaulted to `us-central1`. -/
theorem c6_required_config (s : Secrets) (credOk : Bool) :
    (s.project_id = none → (startApp s credOk).isStopped = true)
    ∧ (pstrip (s.tuned_model_name.getD "") = "" → (startApp s credOk).isStopped = true)
    ∧ (s.raw_bucket_name = none → (startApp s credOk).isStopped = true)
    ∧ (s.gcp_service_account = none → (startApp s credOk).isStopped = true)
    ∧ (credOk = false → (startApp s credOk).isStopped = true)
    ∧ (s.location = none →
        ∀ cfg, startApp s credOk = .running cfg → cfg.location = "us-central1") := by
  refine ⟨?_, ?_, ?_, ?_, ?_, ?_⟩
  · intro h
    simp [startApp, h, truthyOpt, Startup.isStopped]
  · intro h
    simp [startApp, h, Startup.isStopped]
  · intro h
    simp [startApp, h, truthyOpt, Startup.isStopped]
  · intro h
    unfold startApp
    rw [h]
    dsimp only []
    split <;> rfl
  · intro h
    subst h
    rcases hg : s.gcp_service_account with _ | blob <;>
      (unfold startApp; rw [hg]; dsimp only []; split <;> rfl)
  · intro h cfg heq
    unfold startApp at heq
    rw [h] at heq
    rcases hg : s.gcp_service_account with _ | blob <;>
      rw [hg] at heq <;> dsimp only [] at heq
    · split at heq <;> exact Startup.noConfusion heq
    · rcases credOk with _ | _
      · split at heq
        · exact Startup.noConfusion heq
        · exact Startup.noConfusion heq
      · split at heq
        · exact Startup.noConfusion heq
        · simp only [reduceIte] at heq
          injection heq with h2
          rw [← h2]
          rfl

/-- C6, witness: a missing project identifier stops the app. -/
theorem c6_witness :
    (startApp { project_id := none, location := some "us-central1"
                tuned_model_name := some "m", raw_bucket_name := some "b"
                raw_prefix := some "r", gcp_service_account := some "cred" }
        true).isStopped = true :=
  (c6_required_config _ true).1 rfl

/-! ### Claim theorems: the submission record -/

/-- C7: every record built by the submit path carries a timestamp
formatted from the submission-time UTC clock at second precision with a
`Z` suffix, the verbatim stripped user prompt, the static provenance tag
`source_app = "public"`, and the fixed schema version `"v1"`. -/
theorem c7_record_fields (now : UTCTime) (prompt draft tunedName : String) :
    (mkRecord now prompt draft tunedName).lookup "timestamp"
        = some (timestampString now)
    ∧ (∃ s, timestampString now = s ++ ":" ++ pad2 now.second ++ "Z")
    ∧ (mkRecord now prompt draft tunedName).lookup "prompt" = some (pstrip prompt)
    ∧ (mkRecord now prompt draft tunedName).lookup "source_app" = some "public"
    ∧ (mkRecord now prompt draft tunedName).lookup "version" = some "v1" :=
  ⟨rfl,
   ⟨dayString now ++ "T" ++ pad2 now.hour ++ ":" ++ pad2 now.minute, rfl⟩,
   rfl, rfl, rfl⟩

/-! ### Claim theorems: the submit handler -/

/-- The draft the handler submits: the session draft if present, else the
text generated on demand during this submit. -/
def draftUsed (gen : GenEnv) (cfg : Config) (state : SessionState) (prompt : String) :
    String :=
  if state.draft_text = "" then (call_model_tuned gen cfg.tunedName prompt).1
  else state.draft_text

/-- A storage environment whose upload succeeds. -/
def envUploadOk : StorageEnv := ⟨.ok ()⟩

/-- A storage environment whose upload raises. -/
def envUploadFail : StorageEnv := ⟨.error "storage down"⟩

/-- A concrete resolved configuration for witnesses. -/
def cfgDemo : Config :=
  { projectId := "p", location := "us-central1", tunedName := "tm"
    rawBucket := "bucket", rawPrefix := "raw_submissions" }

/-- A concrete submission instant for witnesses. -/
def t0 : UTCTime := ⟨2026, 10, 12, 3, 4, 5⟩

/-- The whole outcome of a consented, non-blank, successful submission. -/
theorem submitHandler_ok_eq (gen : GenEnv) (store : StorageEnv) (cfg : Config)
    (state : SessionState) (prompt : String) (now : UTCTime) (n : Nat)
    (hprompt : pstrip prompt ≠ "") (hup : store.uploadResult = .ok ()) :
    submitHandler gen store cfg state prompt true now n
      = { newState := ⟨""⟩
          persisted := [(_raw_key_for_today cfg.rawPrefix (dayString now) n,
            mkRecord now prompt (draftUsed gen cfg state prompt) cfg.tunedName)]
          uploadCalls := [ _upload_json cfg.rawBucket
            (_raw_key_for_today cfg.rawPrefix (dayString now) n)
            (mkRecord now prompt (draftUsed gen cfg state prompt) cfg.tunedName)]
          errors := []
          warnings := [] } := by
  unfold submitHandler draftUsed
  rw [hup]
  simp only [Bool.not_true, Bool.false_eq_true, if_false, if_neg hprompt]

/-- The whole outcome of a consented, non-blank submission whose upload
raises. -/
theorem submitHandler_err_eq (gen : GenEnv) (store : StorageEnv) (cfg : Config)
    (state : SessionState) (prompt : String) (now : UTCTime) (n : Nat) (e : String)
    (hprompt : pstrip prompt ≠ "") (hup : store.uploadResult = .error e) :
    submitHandler gen store cfg state prompt true now n
      = { newState := ⟨draftUsed gen cfg state prompt⟩
          persisted := []
          uploadCalls := [ _upload_json cfg.rawBucket
            (_raw_key_for_today cfg.rawPrefix (dayString now) n)
            (mkRecord now prompt (draftUsed gen cfg state prompt) cfg.tunedName)]
          errors := [e]
          warnings := [] } := by
  unfold submitHandler draftUsed
  rw [hup]
  simp only [Bool.not_true, Bool.false_eq_true, if_false, if_neg hprompt]

/-- C8: after a successful submission the per-session draft is cleared,
and nothing is ever persisted except full submission records (the draft
only reaches storage inside a record's `ai_response` field). -/
theorem c8_draft_cleared (gen : GenEnv) (store : StorageEnv) (cfg : Config)
    (state : SessionState) (prompt : String) (consent : Bool) (now : UTCTime) (n : Nat)
    (hconsent : consent = true) (hprompt : pstrip prompt ≠ "")
    (hup : store.uploadResult = .ok ()) :
    (submitHandler gen store cfg state prompt consent now n).newState.draft_text = ""
    ∧ ∀ kv ∈ (submitHandler gen store cfg state prompt consent now n).persisted,
        kv.2 = mkRecord now prompt (draftUsed gen cfg state prompt) cfg.tunedName := by
  subst hconsent
  rw [submitHandler_ok_eq gen store cfg state prompt now n hprompt hup]
  refine ⟨rfl, ?_⟩
  intro kv hkv
  simp only [List.mem_singleton] at hkv
  subst hkv
  rfl

/-- C8, witness: a successful concrete submission clears the draft. -/
theorem c8_witness :
    (submitHandler envTunedOk envUploadOk cfgDemo ⟨"old draft"⟩ "p" true t0 0).newState.draft_text
      = "" :=
  (c8_draft_cleared envTunedOk envUploadOk cfgDemo ⟨"old draft"⟩ "p" true t0 0
    rfl (by decide) rfl).1

/-- C9, counterexample: when the session draft was empty at submit time,
generation succeeds with `"hi"`, and the upload then fails, the session
draft is *not* left unchanged — it now holds the freshly generated text. -/
theorem c9_counterexample :
    (submitHandler envTunedOk envUploadFail cfgDemo ⟨""⟩ "p" true t0 0).newState.draft_text
        = "hi"
    ∧ (submitHandler envTunedOk envUploadFail cfgDemo ⟨""⟩ "p" true t0 0).newState
        ≠ (⟨""⟩ : SessionState) := by
  decide

/-- C9 (amended): if the upload call fails, the attempt persists nothing,
exactly one upload was tried (no retry), exactly one error is surfaced,
and the draft is not cleared: the session keeps the draft that was
submitted (a draft already present is left unchanged; a draft generated
on demand during this submit is retained). -/
theorem c9_upload_failure (gen : GenEnv) (store : StorageEnv) (cfg : Config)
    (state : SessionState) (prompt : String) (consent : Bool) (now : UTCTime) (n : Nat)
    (e : String)
    (hconsent : consent = true) (hprompt : pstrip prompt ≠ "")
    (hup : store.uploadResult = .error e) :
    (submitHandler gen store cfg state prompt consent now n).persisted = []
    ∧ (submitHandler gen store cfg state prompt consent now n).uploadCalls.length = 1
    ∧ (submitHandler gen store cfg state prompt consent now n).errors = [e]
    ∧ (submitHandler gen store cfg state prompt consent now n).newState.draft_text
        = draftUsed gen cfg state prompt
    ∧ (state.draft_text ≠ "" →
        (submitHandler gen store cfg state prompt consent now n).newState = state) := by
  subst hconsent
  rw [submitHandler_err_eq gen store cfg state prompt now n e hprompt hup]
  refine ⟨rfl, rfl, rfl, rfl, ?_⟩
  intro hd
  show SessionState.mk (draftUsed gen cfg state prompt) = state
  unfold draftUsed
  rw [if_neg hd]

/-- C9, witness: a concrete failed upload with a pre-existing draft
persists nothing, surfaces the one error, and leaves the draft intact. -/
theorem c9_witness :
    (submitHandler envTunedOk envUploadFail cfgDemo ⟨"kept"⟩ "p" true t0 0).persisted = []
    ∧ (submitHandler envTunedOk envUploadFail cfgDemo ⟨"kept"⟩ "p" true t0 0).errors
        = ["storage down"]
    ∧ (submitHandler envTunedOk envUploadFail cfgDemo ⟨"kept"⟩ "p" true t0 0).newState
        = ⟨"kept"⟩ := by
  have h := c9_upload_failure envTunedOk envUploadFail cfgDemo ⟨"kept"⟩ "p" true t0 0
    "storage down" rfl (by decide) rfl
  exact ⟨h.1, h.2.2.1, h.2.2.2.2 (by decide)⟩

/-- C10: every persisted record's `used_model` field equals the
configured tuned-model name — regardless of which strategy actually
produced the text. -/
theorem c10_used_model_is_tuned (gen : GenEnv) (store : StorageEnv) (cfg : Config)
    (state : SessionState) (prompt : String) (consent : Bool) (now : UTCTime) (n : Nat) :
    ∀ kv ∈ (submitHandler gen store cfg state prompt consent now n).persisted,
      kv.2.lookup "used_model" = some cfg.tunedName := by
  intro kv hkv
  cases consent
  · simp [submitHandler] at hkv
  · by_cases hp : pstrip prompt = ""
    · simp [submitHandler, hp] at hkv
    · rcases hit : store.uploadResult with e | u
      · simp [submitHandler, hp, hit] at hkv
      · simp only [submitHandler, Bool.not_true, Bool.false_eq_true, if_false, if_neg hp, hit,
          List.mem_singleton] at hkv
        subst hkv
        rfl

/-- C10, witness: with the tuned endpoint down and the base model
answering `"from-base"`, the persisted record still names the tuned model
in `used_model` while `ai_response` holds the base model's text. -/
theorem c10_witness :
    ∃ kv ∈ (submitHandler envBaseOnly envUploadOk cfgDemo ⟨""⟩ "p" true t0 0).persisted,
      kv.2.lookup "used_model" = some "tm"
      ∧ kv.2.lookup "ai_response" = some "from-base" := by
  refine ⟨("raw_submissions/2026-10-12/0000000000.json",
           mkRecord t0 "p" "from-base" "tm"), ?_, ?_, ?_⟩
  · decide
  · exact c10_used_model_is_tuned envBaseOnly envUploadOk cfgDemo ⟨""⟩ "p" true t0 0 _
      (by decide)
  · decide

end PublicApp
